import Mathlib

/-
Verification development for the pandemic-oop repository.

The definitions below are a shallow embedding of the TypeScript sources:

  * DiseaseManager (src/pandemic/Disease.ts): global disease states, global
    cube counts, the outbreakedCities set, and the operations infect,
    outbreakAt, epidemicAt and treatDiseaseAt.  The mutual recursion between
    infect and outbreakAt is modelled with a fuel parameter: a result of
    none means the recursion did not finish within the given fuel, and a
    run that returns none for every fuel is a non-terminating run of the
    TypeScript code.
  * Stack (src/pandemic/Stack.ts) and CardStack (src/pandemic/Card.ts):
    a stack is its items array, index 0 holding the bottom element and the
    last element being the top of the stack.
  * Player (the player module, drawCards / startTurn / endTurn and friends)
    and ConcreteGame (src/pandemic/Game.ts): the per-player turn state
    machine and the turn rotation of the match controller.

JavaScript numbers that take part in arithmetic are modelled as Int, so
that negative intermediate values behave exactly as in the source.
-/

set_option linter.unusedSectionVars false

namespace Pandemic

/-- The four disease colours of Disease.ts (type DiseaseType). -/
inductive DiseaseType where
  | red
  | yellow
  | blue
  | black
deriving DecidableEq

/-- Per colour disease state of Disease.ts (type DiseaseState). -/
inductive DiseaseState where
  | uncured
  | cured
  | eradicated
deriving DecidableEq

/-- Observer notifications a DiseaseManager can emit (DiseaseObserver). -/
inductive DiseaseNotification where
  | onNoDiseaseCubes
  | onEightOutbreaks
  | onAllDiseasesCured
deriving DecidableEq

/-- The fixed iteration order of the four colours, as initialised by
initializeGlobalDiseaseStates and initializeGlobalDiseaseCubeCounts. -/
def diseaseTypeList : List DiseaseType :=
  [DiseaseType.red, DiseaseType.yellow, DiseaseType.blue, DiseaseType.black]

/-- The mutable state owned by a DiseaseManager together with the per-city
state it mutates through the City objects (diseases set and diseaseCubeCount
map of City.ts).  `C` is the type of cities of the board. -/
structure DMState (C : Type) where
  globalDiseaseStates : DiseaseType → DiseaseState
  globalDiseaseCubeCounts : DiseaseType → Int
  cityDiseaseCubeCount : C → DiseaseType → Int
  cityDiseases : C → DiseaseType → Bool
  outbreakedCities : List C
  outbreaks : Nat
  infectionRateStep : Nat
  notifications : List DiseaseNotification

namespace DMState

variable {C : Type} [DecidableEq C]

/-- city.diseaseCubeCount.set(diseaseType, v) for one city. -/
def setCityCubes (s : DMState C) (city : C) (d : DiseaseType) (v : Int) :
    DMState C :=
  { s with cityDiseaseCubeCount := fun c dt =>
      if c = city ∧ dt = d then v else s.cityDiseaseCubeCount c dt }

/-- city.diseases.add(diseaseType). -/
def addCityDisease (s : DMState C) (city : C) (d : DiseaseType) : DMState C :=
  { s with cityDiseases := fun c dt =>
      if c = city ∧ dt = d then true else s.cityDiseases c dt }

/-- city.diseases.delete(diseaseType). -/
def removeCityDisease (s : DMState C) (city : C) (d : DiseaseType) :
    DMState C :=
  { s with cityDiseases := fun c dt =>
      if c = city ∧ dt = d then false else s.cityDiseases c dt }

/-- globalDiseaseCubeCounts.set(diseaseType, v). -/
def setGlobalCubes (s : DMState C) (d : DiseaseType) (v : Int) : DMState C :=
  { s with globalDiseaseCubeCounts := fun dt =>
      if dt = d then v else s.globalDiseaseCubeCounts dt }

/-- globalDiseaseStates.set(diseaseType, st). -/
def setDiseaseState (s : DMState C) (d : DiseaseType) (st : DiseaseState) :
    DMState C :=
  { s with globalDiseaseStates := fun dt =>
      if dt = d then st else s.globalDiseaseStates dt }

/-- Recording a notification sent to the registered observers. -/
def notify (s : DMState C) (n : DiseaseNotification) : DMState C :=
  { s with notifications := s.notifications ++ [n] }

@[simp] theorem globalDiseaseStates_setCityCubes (s : DMState C) (c d v) :
    (setCityCubes s c d v).globalDiseaseStates = s.globalDiseaseStates := rfl

@[simp] theorem globalDiseaseCubeCounts_setCityCubes (s : DMState C) (c d v) :
    (setCityCubes s c d v).globalDiseaseCubeCounts =
      s.globalDiseaseCubeCounts := rfl

@[simp] theorem outbreakedCities_setCityCubes (s : DMState C) (c d v) :
    (setCityCubes s c d v).outbreakedCities = s.outbreakedCities := rfl

@[simp] theorem globalDiseaseStates_addCityDisease (s : DMState C) (c d) :
    (addCityDisease s c d).globalDiseaseStates = s.globalDiseaseStates := rfl

@[simp] theorem globalDiseaseCubeCounts_addCityDisease (s : DMState C) (c d) :
    (addCityDisease s c d).globalDiseaseCubeCounts =
      s.globalDiseaseCubeCounts := rfl

@[simp] theorem cityDiseaseCubeCount_addCityDisease (s : DMState C) (c d) :
    (addCityDisease s c d).cityDiseaseCubeCount = s.cityDiseaseCubeCount :=
  rfl

@[simp] theorem outbreakedCities_addCityDisease (s : DMState C) (c d) :
    (addCityDisease s c d).outbreakedCities = s.outbreakedCities := rfl

@[simp] theorem globalDiseaseStates_setGlobalCubes (s : DMState C) (d v) :
    (setGlobalCubes s d v).globalDiseaseStates = s.globalDiseaseStates := rfl

@[simp] theorem cityDiseaseCubeCount_setGlobalCubes (s : DMState C) (d v) :
    (setGlobalCubes s d v).cityDiseaseCubeCount = s.cityDiseaseCubeCount :=
  rfl

@[simp] theorem outbreakedCities_setGlobalCubes (s : DMState C) (d v) :
    (setGlobalCubes s d v).outbreakedCities = s.outbreakedCities := rfl

@[simp] theorem globalDiseaseStates_notify (s : DMState C) (n) :
    (notify s n).globalDiseaseStates = s.globalDiseaseStates := rfl

@[simp] theorem globalDiseaseCubeCounts_notify (s : DMState C) (n) :
    (notify s n).globalDiseaseCubeCounts = s.globalDiseaseCubeCounts := rfl

@[simp] theorem cityDiseaseCubeCount_notify (s : DMState C) (n) :
    (notify s n).cityDiseaseCubeCount = s.cityDiseaseCubeCount := rfl

@[simp] theorem outbreakedCities_notify (s : DMState C) (n) :
    (notify s n).outbreakedCities = s.outbreakedCities := rfl

@[simp] theorem cityDiseases_setCityCubes (s : DMState C) (c d v) :
    (setCityCubes s c d v).cityDiseases = s.cityDiseases := rfl

@[simp] theorem cityDiseases_setGlobalCubes (s : DMState C) (d v) :
    (setGlobalCubes s d v).cityDiseases = s.cityDiseases := rfl

@[simp] theorem cityDiseases_notify (s : DMState C) (n) :
    (notify s n).cityDiseases = s.cityDiseases := rfl

@[simp] theorem notifications_setCityCubes (s : DMState C) (c d v) :
    (setCityCubes s c d v).notifications = s.notifications := rfl

@[simp] theorem notifications_addCityDisease (s : DMState C) (c d) :
    (addCityDisease s c d).notifications = s.notifications := rfl

@[simp] theorem notifications_setGlobalCubes (s : DMState C) (d v) :
    (setGlobalCubes s d v).notifications = s.notifications := rfl

@[simp] theorem notifications_notify (s : DMState C) (n) :
    (notify s n).notifications = s.notifications ++ [n] := rfl

@[simp] theorem cityDiseaseCubeCount_setCityCubes_same
    (s : DMState C) (c : C) (d : DiseaseType) (v : Int) :
    (setCityCubes s c d v).cityDiseaseCubeCount c d = v := by
  simp [setCityCubes]

theorem cityDiseaseCubeCount_setCityCubes (s : DMState C)
    (c c1 : C) (d d1 : DiseaseType) (v : Int) :
    (setCityCubes s c d v).cityDiseaseCubeCount c1 d1 =
      if c1 = c ∧ d1 = d then v else s.cityDiseaseCubeCount c1 d1 := rfl

@[simp] theorem globalDiseaseCubeCounts_setGlobalCubes_same
    (s : DMState C) (d : DiseaseType) (v : Int) :
    (setGlobalCubes s d v).globalDiseaseCubeCounts d = v := by
  simp [setGlobalCubes]

theorem globalDiseaseCubeCounts_setGlobalCubes (s : DMState C)
    (d d1 : DiseaseType) (v : Int) :
    (setGlobalCubes s d v).globalDiseaseCubeCounts d1 =
      if d1 = d then v else s.globalDiseaseCubeCounts d1 := rfl

end DMState

namespace DiseaseManager

variable {C : Type} [DecidableEq C]

/-- DiseaseManager.NUM_DISEASE_CUBES_COLOUR. -/
def NUM_DISEASE_CUBES_COLOUR : Int := 24

/-- DiseaseManager.getGlobalDiseaseCubeCountOf. -/
def getGlobalDiseaseCubeCountOf (s : DMState C) (d : DiseaseType) : Int :=
  s.globalDiseaseCubeCounts d

/-- DiseaseManager.getGlobalDiseaseCubesLeftFor. -/
def getGlobalDiseaseCubesLeftFor (s : DMState C) (d : DiseaseType) : Int :=
  NUM_DISEASE_CUBES_COLOUR - getGlobalDiseaseCubeCountOf s d

/-- DiseaseManager.getStateOf. -/
def getStateOf (s : DMState C) (d : DiseaseType) : DiseaseState :=
  s.globalDiseaseStates d

/-- globalDiseaseCubeCounts.set(d, getGlobalDiseaseCubeCountOf(d) + count). -/
def addGlobalCubes (s : DMState C) (d : DiseaseType) (count : Int) :
    DMState C :=
  DMState.setGlobalCubes s d (getGlobalDiseaseCubeCountOf s d + count)

/-- globalDiseaseCubeCounts.set(d, getGlobalDiseaseCubeCountOf(d) - count). -/
def subGlobalCubes (s : DMState C) (d : DiseaseType) (count : Int) :
    DMState C :=
  DMState.setGlobalCubes s d (getGlobalDiseaseCubeCountOf s d - count)

/-- DiseaseManager.areAllDiseasesCured: no colour is still uncured. -/
def areAllDiseasesCured (s : DMState C) : Bool :=
  diseaseTypeList.all fun d => getStateOf s d ≠ DiseaseState.uncured

/-- DiseaseManager.eradicateDisease. -/
def eradicateDisease (s : DMState C) (d : DiseaseType) : DMState C :=
  let s1 := DMState.setDiseaseState s d DiseaseState.eradicated
  if areAllDiseasesCured s1 then DMState.notify s1 .onAllDiseasesCured else s1

/-- city.isInfected of City.ts: the diseases set of the city is nonempty. -/
def cityIsInfected (s : DMState C) (city : C) : Bool :=
  diseaseTypeList.any fun d => s.cityDiseases city d

/-- One call frame of the mutual recursion between DiseaseManager.infect and
DiseaseManager.outbreakAt, plus the for-loop of outbreakAt over the
neighbouring cities. -/
inductive DMCall (C : Type) where
  | infectCall (city : C) (d : DiseaseType) (count : Int)
  | outbreakCall (city : C) (d : DiseaseType)
  | neighboursCall (cities : List C) (d : DiseaseType)

/-- The mutually recursive pair infect / outbreakAt of Disease.ts, run with
fuel.  `net city` is cityNetwork.getNeighbouringCities(city).  A result of
none means the recursion did not finish within `fuel` nested calls; the
TypeScript code has no fuel bound, so a run that is none for every fuel is
an infinite recursion of the source.

  * infectCall: returns immediately when the colour is eradicated; notifies
    onNoDiseaseCubes when getGlobalDiseaseCubesLeftFor is already negative;
    adds the colour to the city diseases set; when the new cube count would
    exceed 3 it is clamped to 3 and outbreakAt is triggered unless the city
    is in outbreakedCities; finally the city count and the global count are
    written (after the outbreak recursion returns, as in the source).
  * outbreakCall: reads the neighbour list, adds the city to
    outbreakedCities, infects every neighbour with one cube, then clears
    outbreakedCities, increments outbreaks and notifies onEightOutbreaks
    when the counter equals 8.  Note the clear runs at the end of every
    outbreakAt call, the recursive ones included, exactly as in the source.
-/
def dmRun (net : C → List C) : Nat → DMState C → DMCall C → Option (DMState C)
  | 0, _, _ => none
  | Nat.succ fuel, s, DMCall.infectCall city d count =>
    if getStateOf s d = DiseaseState.eradicated then
      some s
    else
      let s1 := if getGlobalDiseaseCubesLeftFor s d < 0 then
        DMState.notify s DiseaseNotification.onNoDiseaseCubes else s
      let s2 := DMState.addCityDisease s1 city d
      let newCount := s2.cityDiseaseCubeCount city d + count
      if 3 < newCount then
        match (if city ∈ s2.outbreakedCities then some s2
               else dmRun net fuel s2 (DMCall.outbreakCall city d)) with
        | none => none
        | some s3 =>
          some (addGlobalCubes (DMState.setCityCubes s3 city d 3) d count)
      else
        some (addGlobalCubes (DMState.setCityCubes s2 city d newCount) d count)
  | Nat.succ fuel, s, DMCall.outbreakCall city d =>
    let neighbours := net city
    let s1 := { s with outbreakedCities := city :: s.outbreakedCities }
    match dmRun net fuel s1 (DMCall.neighboursCall neighbours d) with
    | none => none
    | some s2 =>
      let s3 := { s2 with outbreakedCities := [], outbreaks := s2.outbreaks + 1 }
      some (if s3.outbreaks = 8 then
        DMState.notify s3 DiseaseNotification.onEightOutbreaks else s3)
  | Nat.succ _, s, DMCall.neighboursCall [] _ => some s
  | Nat.succ fuel, s, DMCall.neighboursCall (c :: rest) d =>
    match dmRun net fuel s (DMCall.infectCall c d 1) with
    | none => none
    | some s1 => dmRun net fuel s1 (DMCall.neighboursCall rest d)

/-- DiseaseManager.infect(city, diseaseType, count). -/
def infect (net : C → List C) (fuel : Nat) (s : DMState C) (city : C)
    (d : DiseaseType) (count : Int) : Option (DMState C) :=
  dmRun net fuel s (DMCall.infectCall city d count)

/-- DiseaseManager.outbreakAt(city, diseaseType). -/
def outbreakAt (net : C → List C) (fuel : Nat) (s : DMState C) (city : C)
    (d : DiseaseType) : Option (DMState C) :=
  dmRun net fuel s (DMCall.outbreakCall city d)

/-- DiseaseManager.infectionRateSequence. -/
def infectionRateSequence : List Nat := [2, 2, 2, 3, 3, 4, 4]

/-- DiseaseManager.infectionRate getter. -/
def infectionRate (s : DMState C) : Nat :=
  infectionRateSequence.getD s.infectionRateStep 0

/-- DiseaseManager.epidemicAt: saturating advance of the infection rate step
followed by a full infect. -/
def epidemicAt (net : C → List C) (fuel : Nat) (s : DMState C) (city : C)
    (d : DiseaseType) (count : Int) : Option (DMState C) :=
  let s1 : DMState C := { s with
    infectionRateStep :=
      min (s.infectionRateStep + 1) (infectionRateSequence.length - 1) }
  infect net fuel s1 city d count

/-- Errors thrown by DiseaseManager.treatDiseaseAt. -/
inductive DiseaseError where
  | cityNotInfected
  | diseaseAlreadyEradicated
deriving DecidableEq

/-- The statements after the switch of treatDiseaseAt: drop the disease from
the city set when its cube count reached 0, eradicate the colour when its
global count reached 0. -/
def finishTreat (s : DMState C) (city : C) (d : DiseaseType) : DMState C :=
  let s1 := if s.cityDiseaseCubeCount city d = 0 then
    DMState.removeCityDisease s city d else s
  if getGlobalDiseaseCubeCountOf s1 d = 0 then eradicateDisease s1 d else s1

/-- DiseaseManager.treatDiseaseAt(city, diseaseType, count).

The switch statement of the source has no break: the cured case runs its own
two statements and then falls through into the two statements of the uncured
case, with diseaseCubeCount still bound to the value read before the switch.
-/
def treatDiseaseAt (s : DMState C) (city : C) (d : DiseaseType)
    (count : Int) : Except DiseaseError (DMState C) :=
  if ¬ cityIsInfected s city then
    Except.error DiseaseError.cityNotInfected
  else
    let diseaseCubeCount := s.cityDiseaseCubeCount city d
    match getStateOf s d with
    | DiseaseState.eradicated =>
      Except.error DiseaseError.diseaseAlreadyEradicated
    | DiseaseState.cured =>
      let sA := subGlobalCubes (DMState.setCityCubes s city d 0) d
        diseaseCubeCount
      let sB := subGlobalCubes
        (DMState.setCityCubes sA city d (diseaseCubeCount - count)) d count
      Except.ok (finishTreat sB city d)
    | DiseaseState.uncured =>
      let sA := subGlobalCubes
        (DMState.setCityCubes s city d (diseaseCubeCount - count)) d count
      Except.ok (finishTreat sA city d)

@[simp] theorem globalDiseaseStates_addGlobalCubes (s : DMState C) (d k) :
    (addGlobalCubes s d k).globalDiseaseStates = s.globalDiseaseStates := rfl

@[simp] theorem cityDiseaseCubeCount_addGlobalCubes (s : DMState C) (d k) :
    (addGlobalCubes s d k).cityDiseaseCubeCount = s.cityDiseaseCubeCount :=
  rfl

@[simp] theorem cityDiseases_addGlobalCubes (s : DMState C) (d k) :
    (addGlobalCubes s d k).cityDiseases = s.cityDiseases := rfl

@[simp] theorem outbreakedCities_addGlobalCubes (s : DMState C) (d k) :
    (addGlobalCubes s d k).outbreakedCities = s.outbreakedCities := rfl

@[simp] theorem notifications_addGlobalCubes (s : DMState C) (d k) :
    (addGlobalCubes s d k).notifications = s.notifications := rfl

@[simp] theorem globalDiseaseCubeCounts_addGlobalCubes_same
    (s : DMState C) (d : DiseaseType) (k : Int) :
    (addGlobalCubes s d k).globalDiseaseCubeCounts d =
      s.globalDiseaseCubeCounts d + k := by
  simp [addGlobalCubes, getGlobalDiseaseCubeCountOf]

end DiseaseManager

/-- A one-city board state used for concrete runs: the lone city holds three
red cubes, red is cured with a matching global count of 3, nothing else is
in play.  This is the state of a city about to be treated after red has been
cured. -/
def curedTreatState : DMState Unit :=
  { globalDiseaseStates := fun d =>
      if d = DiseaseType.red then DiseaseState.cured else DiseaseState.uncured
  , globalDiseaseCubeCounts := fun d => if d = DiseaseType.red then 3 else 0
  , cityDiseaseCubeCount := fun _ d => if d = DiseaseType.red then 3 else 0
  , cityDiseases := fun _ d => d = DiseaseType.red
  , outbreakedCities := []
  , outbreaks := 0
  , infectionRateStep := 0
  , notifications := [] }

/-- Claim C3: the spec says that treating a cured colour removes all cubes of
that colour from the city and reduces the global count by exactly the number
the city held.  The switch of treatDiseaseAt has no break, so the cured case
falls through into the uncured case: on a city holding 3 red cubes (red
cured, global count 3), treatDiseaseAt(city, red, 1) leaves the city with
3 - 1 = 2 red cubes and drives the global count to 3 - 3 - 1 = -1, instead
of leaving 0 cubes and a global count of 0. -/
theorem treatDiseaseAt_cured_falls_through :
    (DiseaseManager.treatDiseaseAt curedTreatState () DiseaseType.red 1).map
      (fun s => (s.cityDiseaseCubeCount () DiseaseType.red,
        s.globalDiseaseCubeCounts DiseaseType.red)) =
      Except.ok ((2 : Int), (-1 : Int)) := by
  rfl

/-- A one-city board with red uncured, a red global cube count of exactly 24
(the NUM_DISEASE_CUBES_COLOUR maximum) and no cubes on the city. -/
def redAtMaximumState : DMState Unit :=
  { globalDiseaseStates := fun _ => DiseaseState.uncured
  , globalDiseaseCubeCounts := fun d => if d = DiseaseType.red then 24 else 0
  , cityDiseaseCubeCount := fun _ _ => 0
  , cityDiseases := fun _ _ => false
  , outbreakedCities := []
  , outbreaks := 0
  , infectionRateStep := 0
  , notifications := [] }

/-- A one-city board with red eradicated and a red global cube count of 24. -/
def redEradicatedState : DMState Unit :=
  { globalDiseaseStates := fun d =>
      if d = DiseaseType.red then DiseaseState.eradicated
      else DiseaseState.uncured
  , globalDiseaseCubeCounts := fun d => if d = DiseaseType.red then 24 else 0
  , cityDiseaseCubeCount := fun _ _ => 0
  , cityDiseases := fun _ _ => false
  , outbreakedCities := []
  , outbreaks := 0
  , infectionRateStep := 0
  , notifications := [] }

/-- Claim C7, counterexample.  The claim says the onNoDiseaseCubes loss
signal is raised exactly when adding `count` would push the global total for
the colour over 24, and that infect always adds `count` to the global total.
Both parts fail on the code:

  * with the red global total at exactly 24, infect(city, red, 1) pushes the
    total to 25 > 24 yet raises no notification, because the source checks
    getGlobalDiseaseCubesLeftFor before the addition and only signals when
    the pre-addition total already exceeds 24;
  * with red eradicated, infect returns at once and adds nothing. -/
theorem infect_signal_counterexample :
    ((DiseaseManager.infect (fun _ => ([] : List Unit)) 1 redAtMaximumState ()
        DiseaseType.red 1).map
      (fun s => (s.globalDiseaseCubeCounts DiseaseType.red, s.notifications)) =
      some ((25 : Int), [])) ∧
    DiseaseManager.infect (fun _ => ([] : List Unit)) 1 redEradicatedState ()
        DiseaseType.red 1 = some redEradicatedState := by
  exact ⟨rfl, rfl⟩

/-- Claim C7, amended.  For a colour that is not eradicated and an infect
call that does not hit the per-city clamp, infect adds exactly `count` to the
global total of the colour, and the onNoDiseaseCubes signal is raised exactly
when the global total before the addition already exceeds 24; the check runs
before the addition, so an addition that merely reaches or first exceeds 24
raises nothing. -/
theorem infect_signal_checks_preexisting_total
    {C : Type} [DecidableEq C] (net : C → List C) (fuel : Nat) (s : DMState C)
    (city : C) (d : DiseaseType) (count : Int)
    (hstate : DiseaseManager.getStateOf s d ≠ DiseaseState.eradicated)
    (hcap : s.cityDiseaseCubeCount city d + count ≤ 3) :
    ∃ s2, DiseaseManager.infect net (fuel + 1) s city d count = some s2 ∧
      s2.globalDiseaseCubeCounts d = s.globalDiseaseCubeCounts d + count ∧
      s2.notifications =
        (if 24 < s.globalDiseaseCubeCounts d then
          s.notifications ++ [DiseaseNotification.onNoDiseaseCubes]
        else s.notifications) := by
  have hleft : DiseaseManager.getGlobalDiseaseCubesLeftFor s d < 0 ↔
      24 < s.globalDiseaseCubeCounts d := by
    simp only [DiseaseManager.getGlobalDiseaseCubesLeftFor,
      DiseaseManager.getGlobalDiseaseCubeCountOf,
      DiseaseManager.NUM_DISEASE_CUBES_COLOUR]
    omega
  simp only [DiseaseManager.infect, DiseaseManager.dmRun, if_neg hstate]
  by_cases hsig : DiseaseManager.getGlobalDiseaseCubesLeftFor s d < 0 <;>
    simp only [hsig, if_pos, if_neg, if_true, if_false, ite_true, ite_false,
      DMState.cityDiseaseCubeCount_addCityDisease,
      DMState.cityDiseaseCubeCount_notify] <;>
    rw [if_neg (by omega : ¬ (3 : Int) < s.cityDiseaseCubeCount city d + count)]
  · refine ⟨_, rfl, by simp, by simp [if_pos (hleft.mp hsig)]⟩
  · refine ⟨_, rfl, by simp, by simp; rw [if_neg (by omega : ¬ 24 < s.globalDiseaseCubeCounts d)]⟩

/-- Claim C7, witness for the amended theorem: with the red global total at
30 the signal fires and the total still grows by the added count. -/
def redOverMaximumState : DMState Unit :=
  { globalDiseaseStates := fun _ => DiseaseState.uncured
  , globalDiseaseCubeCounts := fun d => if d = DiseaseType.red then 30 else 0
  , cityDiseaseCubeCount := fun _ _ => 0
  , cityDiseases := fun _ _ => false
  , outbreakedCities := []
  , outbreaks := 0
  , infectionRateStep := 0
  , notifications := [] }

theorem infect_signal_checks_preexisting_total_witness :
    ∃ s2, DiseaseManager.infect (fun _ => ([] : List Unit)) 1
        redOverMaximumState () DiseaseType.red 1 = some s2 ∧
      s2.globalDiseaseCubeCounts DiseaseType.red =
        redOverMaximumState.globalDiseaseCubeCounts DiseaseType.red + 1 ∧
      s2.notifications =
        (if 24 < redOverMaximumState.globalDiseaseCubeCounts DiseaseType.red
         then redOverMaximumState.notifications ++
           [DiseaseNotification.onNoDiseaseCubes]
         else redOverMaximumState.notifications) :=
  infect_signal_checks_preexisting_total (fun _ => []) 0 redOverMaximumState
    () DiseaseType.red 1 (by decide) (by decide)

namespace Stack

variable {T : Type}

/-- Stack.push: items.push(x). -/
def push (items : List T) (x : T) : List T := items ++ [x]

/-- Stack.popMultiple(n): items.splice(-n, n).  A from-the-end start index
is clamped at 0, so when n is at least the size the whole array is removed.
Returns (removed items in array order, remaining items). -/
def popMultiple (items : List T) (n : Nat) : List T × List T :=
  (items.drop (items.length - n), items.take (items.length - n))

/-- The while loop of Stack.mergeStacks for one source stack: while the
source is not empty, pop its top (last) item and push it onto the merged
stack.  One item leaves the source per iteration, so the item count bounds
the loop. -/
def drainIntoAux (merged src : List T) : Nat → List T × List T
  | 0 => (merged, src)
  | fuel + 1 =>
    match src.getLast? with
    | none => (merged, src)
    | some x => drainIntoAux (push merged x) src.dropLast fuel

/-- Draining one source stack into the merged stack. -/
def drainInto (merged src : List T) : List T × List T :=
  drainIntoAux merged src src.length

/-- Stack.mergeStacks: a fresh merged stack is filled by draining every
source stack in argument order.  The result pairs the merged stack with the
final (drained) states of the source stacks. -/
def mergeStacks (srcStacks : List (List T)) : List T × List (List T) :=
  srcStacks.foldl
    (fun acc stack =>
      let r := drainInto acc.1 stack
      (r.1, acc.2 ++ [r.2]))
    ([], [])

theorem drainIntoAux_eq (fuel : Nat) :
    ∀ (src merged : List T), src.length ≤ fuel →
      drainIntoAux merged src fuel = (merged ++ src.reverse, []) := by
  induction fuel with
  | zero =>
    intro src merged h
    have hs : src = [] := List.eq_nil_of_length_eq_zero (Nat.le_zero.mp h)
    simp [hs, drainIntoAux]
  | succ n ih =>
    intro src merged h
    rcases List.eq_nil_or_concat src with hs | ⟨l, a, hs⟩
    · simp [hs, drainIntoAux]
    · subst hs
      simp only [List.concat_eq_append] at h ⊢
      have hl : l.length ≤ n := by
        simp only [List.length_append, List.length_cons, List.length_nil] at h
        omega
      simp only [drainIntoAux, List.getLast?_concat, List.dropLast_concat,
        push]
      rw [ih l (merged ++ [a]) hl]
      simp

theorem drainInto_eq (merged src : List T) :
    drainInto merged src = (merged ++ src.reverse, []) :=
  drainIntoAux_eq src.length src merged (Nat.le_refl _)

theorem mergeStacks_foldl (srcStacks : List (List T)) :
    ∀ (m : List T) (acc : List (List T)),
      srcStacks.foldl
        (fun acc stack =>
          let r := drainInto acc.1 stack
          (r.1, acc.2 ++ [r.2]))
        (m, acc) =
      (m ++ (srcStacks.map List.reverse).flatten,
        acc ++ srcStacks.map fun _ => []) := by
  induction srcStacks with
  | nil => intro m acc; simp
  | cons st rest ih =>
    intro m acc
    rw [List.foldl_cons]
    have hstep : drainInto m st = (m ++ st.reverse, ([] : List T)) :=
      drainInto_eq m st
    simp only [hstep]
    rw [ih]
    simp

/-- Errors thrown by Stack.splitStacks. -/
inductive StackError where
  | invalidSplitCount
deriving DecidableEq

/-- The chunking loop of Stack.splitStacks: starting at index 0 and stepping
by chunkSize, push the slice [i, min(i + chunkSize, size)) as one new stack.
Each iteration consumes chunkSize items of the remainder, so the item count
bounds the loop.  A chunkSize of 0 only arises for an empty stack, where the
loop body never runs. -/
def splitChunksAux (chunkSize : Nat) : Nat → List T → List (List T)
  | 0, _ => []
  | _, [] => []
  | fuel + 1, items =>
    items.take chunkSize :: splitChunksAux chunkSize fuel (items.drop chunkSize)

/-- Stack.splitStacks: fails when n < 1, otherwise cuts the items into
chunks of size Math.ceil(size / n), the last chunk possibly smaller.  The
source stack is not modified. -/
def splitStacks (items : List T) (n : Int) :
    Except StackError (List (List T)) :=
  if n < 1 then Except.error StackError.invalidSplitCount
  else
    let stackSize := (items.length + n.toNat - 1) / n.toNat
    Except.ok (splitChunksAux stackSize items.length items)

theorem splitChunksAux_join (chunkSize : Nat) (hk : 1 ≤ chunkSize) :
    ∀ (fuel : Nat) (items : List T), items.length ≤ fuel →
      (splitChunksAux chunkSize fuel items).flatten = items := by
  intro fuel
  induction fuel with
  | zero =>
    intro items h
    have hs : items = [] := List.eq_nil_of_length_eq_zero (Nat.le_zero.mp h)
    simp [hs, splitChunksAux]
  | succ n ih =>
    intro items h
    cases items with
    | nil => simp [splitChunksAux]
    | cons a l =>
      have hlen : ((a :: l).drop chunkSize).length ≤ n := by
        have h2 : l.length + 1 ≤ n + 1 := by simpa using h
        simp only [List.length_drop, List.length_cons]
        omega
      simp only [splitChunksAux, List.flatten_cons]
      rw [ih ((a :: l).drop chunkSize) hlen]
      exact List.take_append_drop _ _

theorem flatten_map_reverse_perm (ls : List (List T)) :
    ((ls.map List.reverse).flatten).Perm ls.flatten := by
  induction ls with
  | nil => simp
  | cons l rest ih =>
    simp only [List.map_cons, List.flatten]
    exact List.Perm.append (List.reverse_perm l) ih

end Stack

/-- Claim C8, counterexample.  The claim says merge preserves input order
within each source; merging the single-source pile holding 0 then 1 (and a
second source holding 2) yields 1, 0, 2 - the first source comes out
reversed, not in input order 0, 1, 2. -/
theorem mergeStacks_reverses_each_source :
    Stack.mergeStacks [[0, 1], [2]] = (([1, 0, 2] : List Nat), [[], []]) ∧
    ([1, 0, 2] : List Nat) ≠ [0, 1] ++ [2] := by
  exact ⟨rfl, by decide⟩

/-- Claim C8, amended.  merge drains each input pile (every source is empty
afterwards) and returns one pile containing all the cards, with the sources
concatenated in argument order but the order of the cards within each source
reversed, because the merged stack is filled by popping each source from the
top. -/
theorem mergeStacks_drains_and_concatenates_reversed {T : Type}
    (srcStacks : List (List T)) :
    Stack.mergeStacks srcStacks =
      ((srcStacks.map List.reverse).flatten, srcStacks.map fun _ => []) := by
  simpa using Stack.mergeStacks_foldl srcStacks [] []

/-- Claim C9: for every pile and every n at least 1, merging the stacks that
split produced yields a pile holding the same multiset of cards as the
original pile: nothing is lost or duplicated, though order need not
round-trip. -/
theorem splitStacks_mergeStacks_perm {T : Type} (items : List T) (n : Int)
    (h : 1 ≤ n) :
    ∃ parts, Stack.splitStacks items n = Except.ok parts ∧
      ((Stack.mergeStacks parts).1).Perm items := by
  rw [Stack.splitStacks, if_neg (by omega : ¬ n < 1)]
  refine ⟨_, rfl, ?_⟩
  rw [mergeStacks_drains_and_concatenates_reversed]
  refine (Stack.flatten_map_reverse_perm _).trans ?_
  cases items with
  | nil => simp [Stack.splitChunksAux]
  | cons a l =>
    rw [Stack.splitChunksAux_join _ ?_ _ _ (Nat.le_refl _)]
    have hn : 1 ≤ n.toNat := by omega
    have : n.toNat ≤ (a :: l).length + n.toNat - 1 := by
      simp only [List.length_cons]
      omega
    exact (Nat.one_le_div_iff (by omega)).mpr this

/-- Claim C9, witness: splitting the pile 0, 1, 2 into 2 stacks and merging
them back yields a permutation of the original pile. -/
theorem splitStacks_mergeStacks_perm_witness :
    ∃ parts, Stack.splitStacks ([0, 1, 2] : List Nat) 2 = Except.ok parts ∧
      ((Stack.mergeStacks parts).1).Perm [0, 1, 2] :=
  splitStacks_mergeStacks_perm [0, 1, 2] 2 (by decide)

/-- A card of the player draw pile: a PlayerCard with optional city and
disease payload, or an EpidemicCard.  Ids stand in for the string ids of the
source. -/
inductive PlayerPileCard (C : Type) where
  | playerCard (id : Nat) (city : Option C) (diseaseType : Option DiseaseType)
  | epidemicCard (id : Nat)
deriving DecidableEq

/-- An InfectionCard of Card.ts: a city and a disease colour. -/
structure InfectionCard (C : Type) where
  id : Nat
  city : C
  diseaseType : DiseaseType
deriving DecidableEq

/-- The per-player state tag of the player module (type State). -/
inductive PlayerTurnState where
  | active
  | inactive
deriving DecidableEq

/-- Observer notifications a Player can emit (PlayerObserver). -/
inductive PlayerEvent where
  | onNoPlayerCards
deriving DecidableEq

/-- The mutable per-player fields of the Player class that the turn state
machine reads and writes. -/
structure PlayerState (C : Type) where
  cards : List (PlayerPileCard C)
  state : PlayerTurnState
  movesTakenInTurn : Int
  playerCardsDrawnInTurn : Int
  hasDrawnInfectionCards : Bool

/-- A player together with the shared piles and the disease manager it
operates on: the slice of the game a single Player method touches. -/
structure TableState (C : Type) where
  player : PlayerState C
  playerCardDrawPile : List (PlayerPileCard C)
  playerCardDiscardedPile : List (PlayerPileCard C)
  infectionCardDrawPile : List (InfectionCard C)
  infectionCardDiscardedPile : List (InfectionCard C)
  dm : DMState C
  playerNotifications : List PlayerEvent

/-- Errors thrown by the Player methods modelled here. -/
inductive PlayerError where
  | tooManyCards
  | overdraw
  | noInfectionCardToDraw
  | cannotActOnPlayer
  | cannotStartTurn
  | hasNotDrawnInfectionCards
  | cannotFinishActionStage
  | cannotFinishDrawStage
  | alreadyDrawnInfectionCards
  | playerNotFound
deriving DecidableEq

namespace CardStack

/-- CardStack.take(n): nothing for n at most 0, otherwise
Stack.popMultiple(n).  Returns (taken cards in array order, remaining). -/
def take {T : Type} (items : List T) (n : Int) : List T × List T :=
  if n ≤ 0 then ([], items) else Stack.popMultiple items n.toNat

end CardStack

namespace Player

variable {C : Type} [DecidableEq C]

/-- The body of the for-of loop of Player.drawCards for one drawn card.

A PlayerCard is pushed into the hand.  An EpidemicCard draws the top
infection card (reading an empty draw pile is the TypeError of the source,
modelled as an error), runs diseaseManager.epidemicAt with 3 cubes, discards
the epidemic card onto the player discard pile, shuffles the infection
discard pile and merges it with the remaining infection draw pile via
CardStack.merge (Stack.mergeStacks), reassigns the infection draw pile to
the merged stack and clears the (already drained) infection discard pile.
`shuffle` stands for the Fisher-Yates shuffle, whose outcome is a
permutation chosen by Math.random. -/
def processDrawnCard (net : C → List C)
    (shuffle : List (InfectionCard C) → List (InfectionCard C)) (fuel : Nat)
    (ts : TableState C) (card : PlayerPileCard C) :
    Option (Except PlayerError (TableState C)) :=
  match card with
  | PlayerPileCard.playerCard i city dt =>
    some (Except.ok { ts with player := { ts.player with
      cards := ts.player.cards ++ [PlayerPileCard.playerCard i city dt] } })
  | PlayerPileCard.epidemicCard i =>
    match CardStack.take ts.infectionCardDrawPile 1 with
    | ([], _) => some (Except.error PlayerError.noInfectionCardToDraw)
    | (infectionCard :: _, rest) =>
      match DiseaseManager.epidemicAt net fuel ts.dm infectionCard.city
          infectionCard.diseaseType 3 with
      | none => none
      | some dm2 =>
        let merged := Stack.mergeStacks
          [shuffle ts.infectionCardDiscardedPile, rest]
        some (Except.ok { ts with
          dm := dm2
          playerCardDiscardedPile :=
            Stack.push ts.playerCardDiscardedPile (PlayerPileCard.epidemicCard i)
          infectionCardDrawPile := merged.1
          infectionCardDiscardedPile := [] })

/-- The for-of loop of Player.drawCards over the drawn cards. -/
def processDrawnCards (net : C → List C)
    (shuffle : List (InfectionCard C) → List (InfectionCard C)) (fuel : Nat)
    (cards : List (PlayerPileCard C)) (ts : TableState C) :
    Option (Except PlayerError (TableState C)) :=
  match cards with
  | [] => some (Except.ok ts)
  | card :: rest =>
    match processDrawnCard net shuffle fuel ts card with
    | none => none
    | some (Except.error e) => some (Except.error e)
    | some (Except.ok ts1) => processDrawnCards net shuffle fuel rest ts1

/-- The final statement of Player.drawCards: once the drawn cards are
processed, n is added to playerCardsDrawnInTurn; a failure of the processing
loop propagates. -/
def finishDraw (n : Int) (r : Option (Except PlayerError (TableState C))) :
    Option (Except PlayerError (TableState C)) :=
  match r with
  | none => none
  | some (Except.error e) => some (Except.error e)
  | some (Except.ok ts3) =>
    some (Except.ok { ts3 with player := { ts3.player with
      playerCardsDrawnInTurn := ts3.player.playerCardsDrawnInTurn + n } })

/-- The statements of Player.drawCards that follow its two checks: notify
onNoPlayerCards when the draw pile holds fewer than n cards, take up to n
cards, process each drawn card and finally add n to playerCardsDrawnInTurn.
-/
def drawCardsBody (net : C → List C)
    (shuffle : List (InfectionCard C) → List (InfectionCard C)) (fuel : Nat)
    (ts : TableState C) (n : Int) :
    Option (Except PlayerError (TableState C)) :=
  let ts1 := if (ts.playerCardDrawPile.length : Int) < n then
    { ts with playerNotifications :=
      ts.playerNotifications ++ [PlayerEvent.onNoPlayerCards] }
    else ts
  let taken := CardStack.take ts1.playerCardDrawPile n
  let ts2 := { ts1 with playerCardDrawPile := taken.2 }
  finishDraw n (processDrawnCards net shuffle fuel taken.1 ts2)

/-- Player.drawCards(n): checkValidNumberOfCards (hand limit of 7), then the
per-turn draw cap, which only applies while the player state is active, then
the drawing itself. -/
def drawCards (net : C → List C)
    (shuffle : List (InfectionCard C) → List (InfectionCard C)) (fuel : Nat)
    (ts : TableState C) (n : Int) :
    Option (Except PlayerError (TableState C)) :=
  if 7 < ts.player.cards.length then
    some (Except.error PlayerError.tooManyCards)
  else if 2 < ts.player.playerCardsDrawnInTurn + n ∧
      ts.player.state = PlayerTurnState.active then
    some (Except.error PlayerError.overdraw)
  else
    drawCardsBody net shuffle fuel ts n

theorem processDrawnCards_ne_overdraw (net : C → List C)
    (shuffle : List (InfectionCard C) → List (InfectionCard C)) (fuel : Nat) :
    ∀ (cards : List (PlayerPileCard C)) (ts : TableState C),
      processDrawnCards net shuffle fuel cards ts ≠
        some (Except.error PlayerError.overdraw) := by
  intro cards
  induction cards with
  | nil => intro ts; simp [processDrawnCards]
  | cons card rest ih =>
    intro ts
    cases card with
    | playerCard i city dt =>
      simp only [processDrawnCards, processDrawnCard]
      exact ih _
    | epidemicCard i =>
      simp only [processDrawnCards, processDrawnCard]
      cases h1 : CardStack.take ts.infectionCardDrawPile 1 with
      | mk taken rest1 =>
        cases taken with
        | nil => simp
        | cons c more =>
          cases h2 : DiseaseManager.epidemicAt net fuel ts.dm c.city
              c.diseaseType 3 with
          | none => simp [h2]
          | some dm2 =>
            simp only [h2]
            exact ih _

theorem finishDraw_ne_overdraw (n : Int)
    (r : Option (Except PlayerError (TableState C)))
    (h : r ≠ some (Except.error PlayerError.overdraw)) :
    finishDraw n r ≠ some (Except.error PlayerError.overdraw) := by
  rcases r with _ | r
  · simp [finishDraw]
  · rcases r with e | ts3
    · intro hc
      exact h (by
        have he := Except.error.inj (Option.some.inj hc)
        simp [finishDraw, he])
    · simp [finishDraw]

theorem drawCardsBody_ne_overdraw (net : C → List C)
    (shuffle : List (InfectionCard C) → List (InfectionCard C)) (fuel : Nat)
    (ts : TableState C) (n : Int) :
    drawCardsBody net shuffle fuel ts n ≠
      some (Except.error PlayerError.overdraw) := by
  unfold drawCardsBody
  exact finishDraw_ne_overdraw n _
    (processDrawnCards_ne_overdraw net shuffle fuel _ _)

end Player

/-- Claim C10, amended.  Player.drawCards(n) raises the over-draw error if
and only if the hand is within the 7-card limit (the hand-limit check runs
first and raises a different error), the player state is active and
playerCardsDrawnInTurn + n exceeds 2.  In particular a player whose state is
inactive is never stopped by the per-turn draw cap, which is what lets
setupPlayerCards deal each starting hand with a single drawCards call before
the first nextPlayerTurn activates anybody. -/
theorem drawCards_overdraw_iff {C : Type} [DecidableEq C] (net : C → List C)
    (shuffle : List (InfectionCard C) → List (InfectionCard C)) (fuel : Nat)
    (ts : TableState C) (n : Int) :
    Player.drawCards net shuffle fuel ts n =
        some (Except.error PlayerError.overdraw) ↔
      (ts.player.cards.length ≤ 7 ∧
        ts.player.state = PlayerTurnState.active ∧
        2 < ts.player.playerCardsDrawnInTurn + n) := by
  constructor
  · intro h
    unfold Player.drawCards at h
    by_cases h1 : 7 < ts.player.cards.length
    · rw [if_pos h1] at h
      exact absurd (Option.some.inj h) (by intro hx; cases hx)
    · rw [if_neg h1] at h
      by_cases h2 : 2 < ts.player.playerCardsDrawnInTurn + n ∧
          ts.player.state = PlayerTurnState.active
      · exact ⟨by omega, h2.2, h2.1⟩
      · rw [if_neg h2] at h
        exact absurd h (Player.drawCardsBody_ne_overdraw net shuffle fuel ts n)
  · intro h
    unfold Player.drawCards
    rw [if_neg (by omega : ¬ 7 < ts.player.cards.length),
      if_pos ⟨h.2.2, h.2.1⟩]

/-- A disease manager state as the DiseaseManager constructor builds it:
everything uncured, all counts zero, nothing outbreaking. -/
def cleanDM : DMState Unit :=
  { globalDiseaseStates := fun _ => DiseaseState.uncured
  , globalDiseaseCubeCounts := fun _ => 0
  , cityDiseaseCubeCount := fun _ _ => 0
  , cityDiseases := fun _ _ => false
  , outbreakedCities := []
  , outbreaks := 0
  , infectionRateStep := 0
  , notifications := [] }

/-- An active player with eight cards in hand and nothing drawn yet. -/
def overfullHandTable : TableState Unit :=
  { player :=
    { cards := (List.range 8).map fun i => PlayerPileCard.playerCard i none none
    , state := PlayerTurnState.active
    , movesTakenInTurn := 0
    , playerCardsDrawnInTurn := 0
    , hasDrawnInfectionCards := false }
  , playerCardDrawPile := []
  , playerCardDiscardedPile := []
  , infectionCardDrawPile := []
  , infectionCardDiscardedPile := []
  , dm := cleanDM
  , playerNotifications := [] }

/-- Claim C10, counterexample.  The claim states the over-draw error is
raised if and only if the state is active and playerCardsDrawnInTurn + n
exceeds 2.  For an active player with 8 cards in hand and n = 3 the right
hand side holds, yet drawCards raises the hand-limit error instead of the
over-draw error, because checkValidNumberOfCards runs first. -/
theorem drawCards_overdraw_counterexample :
    Player.drawCards (fun _ => ([] : List Unit)) (fun l => l) 1
        overfullHandTable 3 =
      some (Except.error PlayerError.tooManyCards) ∧
    (overfullHandTable.player.state = PlayerTurnState.active ∧
      2 < overfullHandTable.player.playerCardsDrawnInTurn + 3) ∧
    PlayerError.tooManyCards ≠ PlayerError.overdraw := by
  refine ⟨rfl, ⟨rfl, by decide⟩, by decide⟩

/-- The three infection cards of the epidemic recycle run: the card the
epidemic draws, the card that stays in the infection draw pile, and the card
sitting in the infection discard pile. -/
def epidemicDrawnCard : InfectionCard Unit := ⟨0, (), DiseaseType.red⟩

def remainingDrawCard : InfectionCard Unit := ⟨1, (), DiseaseType.yellow⟩

def discardedInfectionCard : InfectionCard Unit := ⟨2, (), DiseaseType.blue⟩

/-- An active player about to draw the one epidemic card of the draw pile:
the infection draw pile holds remainingDrawCard under epidemicDrawnCard, the
infection discard pile holds discardedInfectionCard. -/
def epidemicTable : TableState Unit :=
  { player :=
    { cards := []
    , state := PlayerTurnState.active
    , movesTakenInTurn := 4
    , playerCardsDrawnInTurn := 0
    , hasDrawnInfectionCards := false }
  , playerCardDrawPile := [PlayerPileCard.epidemicCard 0]
  , playerCardDiscardedPile := []
  , infectionCardDrawPile := [remainingDrawCard, epidemicDrawnCard]
  , infectionCardDiscardedPile := [discardedInfectionCard]
  , dm := cleanDM
  , playerNotifications := [] }

/-- Claim C2: drawing the epidemic card is supposed to leave the shuffled
infection discard pile on top of (drawn before) the remaining infection draw
pile.  Running drawCards(1) on epidemicTable leaves the infection draw pile
as [discardedInfectionCard, remainingDrawCard]: the top of the stack (its
last element, the next card drawn) is remainingDrawCard, a card that was
still in the draw pile, so every remaining draw-pile card is drawn before
the recycled discard, the opposite of the claimed order.  The discard pile
is indeed empty afterwards.  The one-card discard pile makes the shuffle
irrelevant, so the identity permutation is passed for it. -/
theorem drawCards_epidemic_recycle_order :
    ∃ ts2, Player.drawCards (fun _ => ([] : List Unit)) (fun l => l) 5
        epidemicTable 1 = some (Except.ok ts2) ∧
      ts2.infectionCardDrawPile = [discardedInfectionCard, remainingDrawCard] ∧
      ts2.infectionCardDiscardedPile = [] ∧
      [discardedInfectionCard, remainingDrawCard] ≠
        [remainingDrawCard, discardedInfectionCard] := by
  exact ⟨_, rfl, rfl, rfl, by decide⟩

/-- The lifecycle states of ConcreteGame relevant once a match runs. -/
inductive GameLifecycle where
  | inProgress
  | lost
  | won
  | abandoned
deriving DecidableEq

/-- One entry of the internalPlayers map: a name and the player state. -/
structure NamedPlayer (N C : Type) where
  name : N
  ps : PlayerState C

/-- The match state a running ConcreteGame owns: the players in registration
order, the playing order, the rotation index, the shared piles and the
disease manager.

The source hands every Player object references to the same pile objects, so
the piles are modelled as shared fields.  The one operation that reassigns a
per-player pile reference instead of mutating the shared object is the
epidemic branch of drawCards; none of the runs below draws an epidemic card,
so the shared-field model agrees with the source on them. -/
structure MatchState (N C : Type) where
  players : List (NamedPlayer N C)
  playingOrder : List N
  currentPlayerIndex : Nat
  gameState : GameLifecycle
  playerCardDrawPile : List (PlayerPileCard C)
  playerCardDiscardedPile : List (PlayerPileCard C)
  infectionCardDrawPile : List (InfectionCard C)
  infectionCardDiscardedPile : List (InfectionCard C)
  dm : DMState C

namespace ConcreteGame

variable {N C : Type} [DecidableEq N] [DecidableEq C]

/-- internalPlayers.get(name). -/
def getPlayer (ms : MatchState N C) (name : N) : Option (PlayerState C) :=
  (ms.players.find? fun np => np.name == name).map fun np => np.ps

/-- Updating the player stored under `name`. -/
def setPlayer (ms : MatchState N C) (name : N)
    (f : PlayerState C → PlayerState C) : MatchState N C :=
  { ms with players := ms.players.map fun np =>
      if np.name = name then { np with ps := f np.ps } else np }

/-- ConcreteGame.complete(outcome): every player becomes inactive and the
game state records the outcome. -/
def complete (ms : MatchState N C) (outcome : GameLifecycle) :
    MatchState N C :=
  { ms with
    players := ms.players.map fun np =>
      { np with ps := { np.ps with state := PlayerTurnState.inactive } }
    gameState := outcome }

/-- ConcreteGame.nextPlayerTurn: the player named at
playingOrder[currentPlayerIndex] becomes active and the index advances by
one modulo the playing order length.  A missing player is the thrown error
of the source. -/
def nextPlayerTurn (ms : MatchState N C) :
    Except PlayerError (MatchState N C) :=
  match ms.playingOrder.get? ms.currentPlayerIndex with
  | none => Except.error PlayerError.playerNotFound
  | some pname =>
    match getPlayer ms pname with
    | none => Except.error PlayerError.playerNotFound
    | some _ =>
      Except.ok { (setPlayer ms pname fun q =>
          { q with state := PlayerTurnState.active }) with
        currentPlayerIndex :=
          (ms.currentPlayerIndex + 1) % ms.playingOrder.length }

/-- The observer reaction of ConcreteGame to one DiseaseManager
notification: eight outbreaks and cube exhaustion lose the match, all cures
win it. -/
def applyDiseaseNotification (ms : MatchState N C)
    (n : DiseaseNotification) : MatchState N C :=
  match n with
  | DiseaseNotification.onEightOutbreaks => complete ms GameLifecycle.lost
  | DiseaseNotification.onNoDiseaseCubes => complete ms GameLifecycle.lost
  | DiseaseNotification.onAllDiseasesCured => complete ms GameLifecycle.won

/-- The observer reaction of ConcreteGame to one Player notification that is
not a turn notification: an empty player draw pile loses the match. -/
def applyPlayerEvent (ms : MatchState N C) (e : PlayerEvent) :
    MatchState N C :=
  match e with
  | PlayerEvent.onNoPlayerCards => complete ms GameLifecycle.lost

end ConcreteGame

namespace Player

variable {N C : Type} [DecidableEq N] [DecidableEq C]

/-- Player.MAX_ACTIONS_PER_TURN. -/
def MAX_ACTIONS_PER_TURN : Int := 4

/-- Player.isActionable: active and under the per-turn action budget. -/
def isActionable (p : PlayerState C) : Prop :=
  p.state = PlayerTurnState.active ∧
    p.movesTakenInTurn < MAX_ACTIONS_PER_TURN

instance (p : PlayerState C) : Decidable (isActionable p) := by
  unfold isActionable
  infer_instance

/-- Player.startTurn: fails unless the player is actionable; notifies
onTurnStart (a no-op in ConcreteGame) and resets the per-turn draw and
action counters.  The state field is not touched. -/
def startTurn (name : N) (ms : MatchState N C) :
    Except PlayerError (MatchState N C) :=
  match ConcreteGame.getPlayer ms name with
  | none => Except.error PlayerError.playerNotFound
  | some p =>
    if ¬ isActionable p then Except.error PlayerError.cannotStartTurn
    else Except.ok (ConcreteGame.setPlayer ms name fun q =>
      { q with playerCardsDrawnInTurn := 0, movesTakenInTurn := 0 })

/-- Player.pass: fails unless actionable, then checkValidNumberOfCards, then
one action slot is consumed. -/
def pass (name : N) (ms : MatchState N C) :
    Except PlayerError (MatchState N C) :=
  match ConcreteGame.getPlayer ms name with
  | none => Except.error PlayerError.playerNotFound
  | some p =>
    if ¬ isActionable p then Except.error PlayerError.cannotActOnPlayer
    else if 7 < p.cards.length then Except.error PlayerError.tooManyCards
    else Except.ok (ConcreteGame.setPlayer ms name fun q =>
      { q with movesTakenInTurn := q.movesTakenInTurn + 1 })

/-- Player.finishActionStage: fails while the player is still actionable
(moves left), otherwise changes nothing. -/
def finishActionStage (name : N) (ms : MatchState N C) :
    Except PlayerError (MatchState N C) :=
  match ConcreteGame.getPlayer ms name with
  | none => Except.error PlayerError.playerNotFound
  | some p =>
    if isActionable p then Except.error PlayerError.cannotFinishActionStage
    else Except.ok ms

/-- Player.finishDrawStage: fails unless 2 player cards were drawn this
turn, otherwise changes nothing. -/
def finishDrawStage (name : N) (ms : MatchState N C) :
    Except PlayerError (MatchState N C) :=
  match ConcreteGame.getPlayer ms name with
  | none => Except.error PlayerError.playerNotFound
  | some p =>
    if p.playerCardsDrawnInTurn < 2 then
      Except.error PlayerError.cannotFinishDrawStage
    else Except.ok ms

/-- Player.endTurn: fails unless hasDrawnInfectionCards; notifies onTurnEnd,
upon which ConcreteGame.nextPlayerTurn activates the next player in
rotation, and only then sets the own state to inactive, exactly in the
source order. -/
def endTurn (name : N) (ms : MatchState N C) :
    Except PlayerError (MatchState N C) :=
  match ConcreteGame.getPlayer ms name with
  | none => Except.error PlayerError.playerNotFound
  | some p =>
    if ¬ p.hasDrawnInfectionCards then
      Except.error PlayerError.hasNotDrawnInfectionCards
    else
      match ConcreteGame.nextPlayerTurn ms with
      | Except.error e => Except.error e
      | Except.ok ms1 =>
        Except.ok (ConcreteGame.setPlayer ms1 name fun q =>
          { q with state := PlayerTurnState.inactive })

/-- The result of a match operation: none when a disease cascade inside it
does not terminate, otherwise the thrown error or the next match state. -/
def MatchRes (N C : Type) := Option (Except PlayerError (MatchState N C))

/-- Sequencing of match operations: errors and exhausted fuel propagate. -/
def andThen {N C : Type} (r : MatchRes N C)
    (f : MatchState N C → MatchRes N C) : MatchRes N C :=
  match r with
  | none => none
  | some (Except.error e) => some (Except.error e)
  | some (Except.ok ms) => f ms

/-- Player.drawCards at match level: the slice of the match the player
operates on is collected into a TableState, the table-level drawCards of
above runs, and its outcome is written back.  Notifications raised during
the call are then delivered to ConcreteGame; the three completions they can
cause only flip the game state and player states, which the remaining
statements of drawCards never read, so delivering them after the write-back
yields the same final state as the synchronous delivery of the source. -/
def drawCardsAt (net : C → List C)
    (shuffle : List (InfectionCard C) → List (InfectionCard C)) (fuel : Nat)
    (name : N) (n : Int) (ms : MatchState N C) : MatchRes N C :=
  match ConcreteGame.getPlayer ms name with
  | none => some (Except.error PlayerError.playerNotFound)
  | some p =>
    let table : TableState C :=
      { player := p
      , playerCardDrawPile := ms.playerCardDrawPile
      , playerCardDiscardedPile := ms.playerCardDiscardedPile
      , infectionCardDrawPile := ms.infectionCardDrawPile
      , infectionCardDiscardedPile := ms.infectionCardDiscardedPile
      , dm := ms.dm
      , playerNotifications := [] }
    match drawCards net shuffle fuel table n with
    | none => none
    | some (Except.error e) => some (Except.error e)
    | some (Except.ok t2) =>
      let ms1 : MatchState N C :=
        { (ConcreteGame.setPlayer ms name fun _ => t2.player) with
          playerCardDrawPile := t2.playerCardDrawPile
          playerCardDiscardedPile := t2.playerCardDiscardedPile
          infectionCardDrawPile := t2.infectionCardDrawPile
          infectionCardDiscardedPile := t2.infectionCardDiscardedPile
          dm := t2.dm }
      let ms2 := (t2.dm.notifications.drop ms.dm.notifications.length).foldl
        ConcreteGame.applyDiseaseNotification ms1
      some (Except.ok
        (t2.playerNotifications.foldl ConcreteGame.applyPlayerEvent ms2))

/-- The for-of loop of Player.drawInfectionCards: each drawn card infects
its city with one cube, goes to the infection discard pile, and sets
hasDrawnInfectionCards - the flag is only set when at least one card was
drawn, because the assignment sits inside the loop. -/
def infectionCardLoop (net : C → List C) (fuel : Nat) :
    List (InfectionCard C) → DMState C → List (InfectionCard C) → Bool →
      Option (DMState C × List (InfectionCard C) × Bool)
  | [], dm, discard, flag => some (dm, discard, flag)
  | card :: rest, dm, discard, _ =>
    match DiseaseManager.infect net fuel dm card.city card.diseaseType 1 with
    | none => none
    | some dm2 =>
      infectionCardLoop net fuel rest dm2 (Stack.push discard card) true

/-- Player.drawInfectionCards: fails when already performed; draws
infectionRate cards from the infection draw pile and runs the loop above;
DiseaseManager notifications raised by the infections are then delivered to
ConcreteGame as for drawCardsAt. -/
def drawInfectionCards (net : C → List C) (fuel : Nat) (name : N)
    (ms : MatchState N C) : MatchRes N C :=
  match ConcreteGame.getPlayer ms name with
  | none => some (Except.error PlayerError.playerNotFound)
  | some p =>
    if p.hasDrawnInfectionCards then
      some (Except.error PlayerError.alreadyDrawnInfectionCards)
    else
      let taken := CardStack.take ms.infectionCardDrawPile
        (DiseaseManager.infectionRate ms.dm : Int)
      match infectionCardLoop net fuel taken.1 ms.dm
          ms.infectionCardDiscardedPile p.hasDrawnInfectionCards with
      | none => none
      | some (dm2, discard2, flag2) =>
        let ms1 : MatchState N C :=
          { (ConcreteGame.setPlayer ms name fun q =>
              { q with hasDrawnInfectionCards := flag2 }) with
            infectionCardDrawPile := taken.2
            infectionCardDiscardedPile := discard2
            dm := dm2 }
        some (Except.ok
          ((dm2.notifications.drop ms.dm.notifications.length).foldl
            ConcreteGame.applyDiseaseNotification ms1))

end Player

/-- The state stored in a successful match result. -/
def matchResultState {N C : Type} (r : Player.MatchRes N C) :
    Option (MatchState N C) :=
  match r with
  | some (Except.ok ms) => some ms
  | _ => none

/-- Whether a match result is a successful (non-error, terminated) state. -/
def matchResultIsOk {N C : Type} (r : Player.MatchRes N C) : Bool :=
  match r with
  | some (Except.ok _) => true
  | _ => false

/-- The two players of the concrete runs below. -/
inductive PName where
  | amy
  | bob
deriving DecidableEq

/-- A starting hand of four plain player cards. -/
def startingHand (base : Nat) : List (PlayerPileCard Unit) :=
  (List.range 4).map fun i => PlayerPileCard.playerCard (base + i) none none

/-- The board has one city with no neighbours. -/
def noCities : Unit → List Unit := fun _ => []

/-- A two-player match as ConcreteGame.start leaves it: hands dealt (the
setup drawCards left playerCardsDrawnInTurn at 4 on both players),
nextPlayerTurn has made amy active and advanced the rotation index to 1, the
player draw pile holds four plain player cards and the infection draw pile
four infection cards of distinct colours, so no epidemic and no outbreak can
occur in the runs below. -/
def ms0 : MatchState PName Unit :=
  { players :=
    [ { name := PName.amy
      , ps :=
        { cards := startingHand 100
        , state := PlayerTurnState.active
        , movesTakenInTurn := 0
        , playerCardsDrawnInTurn := 4
        , hasDrawnInfectionCards := false } }
    , { name := PName.bob
      , ps :=
        { cards := startingHand 110
        , state := PlayerTurnState.inactive
        , movesTakenInTurn := 0
        , playerCardsDrawnInTurn := 4
        , hasDrawnInfectionCards := false } } ]
  , playingOrder := [PName.amy, PName.bob]
  , currentPlayerIndex := 1
  , gameState := GameLifecycle.inProgress
  , playerCardDrawPile :=
      (List.range 4).map fun i => PlayerPileCard.playerCard (10 + i) none none
  , playerCardDiscardedPile := []
  , infectionCardDrawPile :=
      [ { id := 20, city := (), diseaseType := DiseaseType.red }
      , { id := 21, city := (), diseaseType := DiseaseType.yellow }
      , { id := 22, city := (), diseaseType := DiseaseType.blue }
      , { id := 23, city := (), diseaseType := DiseaseType.black } ]
  , infectionCardDiscardedPile := []
  , dm := cleanDM }

/-- One complete legal turn of the named player, exactly the sequence the
shipped usage example performs: startTurn, four actions, finishActionStage,
drawCards(2), finishDrawStage, drawInfectionCards, endTurn. -/
def fullTurn (name : PName) (ms : MatchState PName Unit) :
    Player.MatchRes PName Unit :=
  Player.andThen (some (Player.startTurn name ms)) fun ms1 =>
  Player.andThen (some (Player.pass name ms1)) fun ms2 =>
  Player.andThen (some (Player.pass name ms2)) fun ms3 =>
  Player.andThen (some (Player.pass name ms3)) fun ms4 =>
  Player.andThen (some (Player.pass name ms4)) fun ms5 =>
  Player.andThen (some (Player.finishActionStage name ms5)) fun ms6 =>
  Player.andThen (Player.drawCardsAt noCities (fun l => l) 5 name 2 ms6)
    fun ms7 =>
  Player.andThen (some (Player.finishDrawStage name ms7)) fun ms8 =>
  Player.andThen (Player.drawInfectionCards noCities 5 name ms8) fun ms9 =>
  some (Player.endTurn name ms9)

/-- The match after a full turn of amy followed by a full turn of bob; the
final endTurn of bob has run nextPlayerTurn, which made amy the active
player again. -/
def twoTurnsRun : Player.MatchRes PName Unit :=
  Player.andThen (fullTurn PName.amy ms0) (fullTurn PName.bob)

/-- Claim C4: the controller has made amy the current active player again
after two full turns, yet her startTurn throws, because movesTakenInTurn is
reset only inside startTurn itself and nowhere on turn rotation: the four
actions of her first turn leave movesTakenInTurn at 4, so isActionable is
false and startTurn reports that it is not her turn. -/
theorem startTurn_fails_on_second_round :
    (matchResultState twoTurnsRun).map
        (fun ms => (ConcreteGame.getPlayer ms PName.amy).map
          fun p => p.state) =
      some (some PlayerTurnState.active) ∧
    Player.andThen twoTurnsRun
        (fun ms => some (Player.startTurn PName.amy ms)) =
      some (Except.error PlayerError.cannotStartTurn) := by
  exact ⟨rfl, rfl⟩

section OutbreakDivergence

variable {C : Type} [DecidableEq C]

/-- A board state in which every city holds exactly 3 red cubes and red is
still uncured: the configuration left behind by widespread infection, where
any further red cube anywhere is an outbreak trigger. -/
def Saturated (s : DMState C) : Prop :=
  s.globalDiseaseStates DiseaseType.red = DiseaseState.uncured ∧
  ∀ c : C, s.cityDiseaseCubeCount c DiseaseType.red = 3

theorem Saturated.not_eradicated {s : DMState C} (hs : Saturated s) :
    ¬ DiseaseManager.getStateOf s DiseaseType.red =
      DiseaseState.eradicated := by
  rw [DiseaseManager.getStateOf, hs.1]
  intro hx
  cases hx

/-- The state infect builds before deciding about the outbreak: the possible
onNoDiseaseCubes notification followed by city.diseases.add. -/
def preInfect (s : DMState C) (city : C) : DMState C :=
  DMState.addCityDisease
    (if DiseaseManager.getGlobalDiseaseCubesLeftFor s DiseaseType.red < 0
     then DMState.notify s DiseaseNotification.onNoDiseaseCubes else s)
    city DiseaseType.red

@[simp] theorem preInfect_cityDiseaseCubeCount (s : DMState C) (city : C) :
    (preInfect s city).cityDiseaseCubeCount = s.cityDiseaseCubeCount := by
  unfold preInfect
  split <;> simp

@[simp] theorem preInfect_globalDiseaseStates (s : DMState C) (city : C) :
    (preInfect s city).globalDiseaseStates = s.globalDiseaseStates := by
  unfold preInfect
  split <;> simp

@[simp] theorem preInfect_outbreakedCities (s : DMState C) (city : C) :
    (preInfect s city).outbreakedCities = s.outbreakedCities := by
  unfold preInfect
  split <;> simp

theorem preInfect_saturated {s : DMState C} (hs : Saturated s) (city : C) :
    Saturated (preInfect s city) := by
  refine ⟨?_, ?_⟩
  · rw [preInfect_globalDiseaseStates]
    exact hs.1
  · intro c
    rw [preInfect_cityDiseaseCubeCount]
    exact hs.2 c

theorem saturated_setCityCubes_addGlobal {s : DMState C} (hs : Saturated s)
    (city : C) :
    Saturated (DiseaseManager.addGlobalCubes
      (DMState.setCityCubes s city DiseaseType.red 3) DiseaseType.red 1) := by
  refine ⟨by simpa using hs.1, ?_⟩
  intro c
  simp only [DiseaseManager.cityDiseaseCubeCount_addGlobalCubes,
    DMState.cityDiseaseCubeCount_setCityCubes]
  split
  · rfl
  · exact hs.2 c

/-- One unfolding of infect in a saturated state when the city is not
currently outbreaking: the cube addition hits the per-city clamp, so the
call becomes an outbreakAt whose result gets the clamped city count and the
global increment applied. -/
theorem dmRun_infect_saturated_step (net : C → List C) (n : Nat)
    (s : DMState C) (city : C) (hs : Saturated s)
    (hV : city ∉ s.outbreakedCities) :
    DiseaseManager.dmRun net (n + 1) s
        (DiseaseManager.DMCall.infectCall city DiseaseType.red 1) =
      match DiseaseManager.dmRun net n (preInfect s city)
          (DiseaseManager.DMCall.outbreakCall city DiseaseType.red) with
      | none => none
      | some s3 => some (DiseaseManager.addGlobalCubes
          (DMState.setCityCubes s3 city DiseaseType.red 3)
          DiseaseType.red 1) := by
  rw [DiseaseManager.dmRun]
  rw [if_neg hs.not_eradicated]
  have hcube : (preInfect s city).cityDiseaseCubeCount city DiseaseType.red
      = 3 := by
    rw [preInfect_cityDiseaseCubeCount]
    exact hs.2 city
  simp only [preInfect] at hcube
  simp only [hcube]
  rw [if_pos (by norm_num : (3 : Int) < 3 + 1)]
  have hmem : city ∉ (DMState.addCityDisease
      (if DiseaseManager.getGlobalDiseaseCubesLeftFor s DiseaseType.red < 0
       then DMState.notify s DiseaseNotification.onNoDiseaseCubes else s)
      city DiseaseType.red).outbreakedCities := by
    have hV2 := hV
    rw [show (DMState.addCityDisease
      (if DiseaseManager.getGlobalDiseaseCubesLeftFor s DiseaseType.red < 0
       then DMState.notify s DiseaseNotification.onNoDiseaseCubes else s)
      city DiseaseType.red).outbreakedCities = s.outbreakedCities from by
        rw [show DMState.addCityDisease
          (if DiseaseManager.getGlobalDiseaseCubesLeftFor s DiseaseType.red
              < 0
           then DMState.notify s DiseaseNotification.onNoDiseaseCubes else s)
          city DiseaseType.red = preInfect s city from rfl]
        exact preInfect_outbreakedCities s city]
    exact hV2
  rw [if_neg hmem]
  rfl

/-- The matching unfolding when the city is already in outbreakedCities: no
outbreak is triggered and the write-back happens at once. -/
theorem dmRun_infect_saturated_step_mem (net : C → List C) (n : Nat)
    (s : DMState C) (city : C) (hs : Saturated s)
    (hV : city ∈ s.outbreakedCities) :
    DiseaseManager.dmRun net (n + 1) s
        (DiseaseManager.DMCall.infectCall city DiseaseType.red 1) =
      some (DiseaseManager.addGlobalCubes
        (DMState.setCityCubes (preInfect s city) city DiseaseType.red 3)
        DiseaseType.red 1) := by
  rw [DiseaseManager.dmRun]
  rw [if_neg hs.not_eradicated]
  have hcube : (preInfect s city).cityDiseaseCubeCount city DiseaseType.red
      = 3 := by
    rw [preInfect_cityDiseaseCubeCount]
    exact hs.2 city
  simp only [preInfect] at hcube
  simp only [hcube]
  rw [if_pos (by norm_num : (3 : Int) < 3 + 1)]
  have hmem : city ∈ (DMState.addCityDisease
      (if DiseaseManager.getGlobalDiseaseCubesLeftFor s DiseaseType.red < 0
       then DMState.notify s DiseaseNotification.onNoDiseaseCubes else s)
      city DiseaseType.red).outbreakedCities := by
    rw [show DMState.addCityDisease
      (if DiseaseManager.getGlobalDiseaseCubesLeftFor s DiseaseType.red < 0
       then DMState.notify s DiseaseNotification.onNoDiseaseCubes else s)
      city DiseaseType.red = preInfect s city from rfl,
      preInfect_outbreakedCities]
    exact hV
  rw [if_pos hmem]
  rfl

/-- Saturation is an invariant of the infect / outbreakAt recursion, and a
completed call leaves outbreakedCities exactly as the source computes it: an
infect on a city already outbreaking leaves the set alone, while any call
that went through outbreakAt returns with the set cleared, because the clear
statement runs at the end of every outbreakAt activation. -/
theorem dmRun_saturated_preservation (net : C → List C) :
    ∀ fuel : Nat,
      (∀ (s : DMState C) (city : C) (s2 : DMState C), Saturated s →
        DiseaseManager.dmRun net fuel s
            (DiseaseManager.DMCall.infectCall city DiseaseType.red 1) =
          some s2 →
        Saturated s2 ∧
          (city ∈ s.outbreakedCities →
            s2.outbreakedCities = s.outbreakedCities) ∧
          (city ∉ s.outbreakedCities → s2.outbreakedCities = [])) ∧
      (∀ (s : DMState C) (city : C) (s2 : DMState C), Saturated s →
        DiseaseManager.dmRun net fuel s
            (DiseaseManager.DMCall.outbreakCall city DiseaseType.red) =
          some s2 →
        Saturated s2 ∧ s2.outbreakedCities = []) ∧
      (∀ (s : DMState C) (l : List C) (s2 : DMState C), Saturated s →
        DiseaseManager.dmRun net fuel s
            (DiseaseManager.DMCall.neighboursCall l DiseaseType.red) =
          some s2 →
        Saturated s2) := by
  intro fuel
  induction fuel with
  | zero =>
    refine ⟨?_, ?_, ?_⟩
    · intro s a s2 hs h
      exact absurd h (by simp [DiseaseManager.dmRun])
    · intro s a s2 hs h
      exact absurd h (by simp [DiseaseManager.dmRun])
    · intro s a s2 hs h
      exact absurd h (by simp [DiseaseManager.dmRun])
  | succ n ih =>
    obtain ⟨ihInf, ihOut, ihNbr⟩ := ih
    refine ⟨?_, ?_, ?_⟩
    · intro s city s2 hs h
      by_cases hV : city ∈ s.outbreakedCities
      · rw [dmRun_infect_saturated_step_mem net n s city hs hV] at h
        have h2 := (Option.some.inj h).symm
        subst h2
        refine ⟨saturated_setCityCubes_addGlobal
          (preInfect_saturated hs city) city, ?_, ?_⟩
        · intro _
          simp
        · intro hx
          exact absurd hV hx
      · rw [dmRun_infect_saturated_step net n s city hs hV] at h
        cases hout : DiseaseManager.dmRun net n (preInfect s city)
            (DiseaseManager.DMCall.outbreakCall city DiseaseType.red) with
        | none =>
          rw [hout] at h
          cases h
        | some s3 =>
          rw [hout] at h
          obtain ⟨hsat3, hV3⟩ := ihOut (preInfect s city) city s3
            (preInfect_saturated hs city) hout
          have h2 := (Option.some.inj h).symm
          subst h2
          refine ⟨saturated_setCityCubes_addGlobal hsat3 city, ?_, ?_⟩
          · intro hmem
            exact absurd hmem hV
          · intro _
            simp [hV3]
    · intro s city s2 hs h
      simp only [DiseaseManager.dmRun] at h
      cases hnbr : DiseaseManager.dmRun net n
          { s with outbreakedCities := city :: s.outbreakedCities }
          (DiseaseManager.DMCall.neighboursCall (net city)
            DiseaseType.red) with
      | none =>
        rw [hnbr] at h
        cases h
      | some sB =>
        rw [hnbr] at h
        have hsatB : Saturated sB :=
          ihNbr { s with outbreakedCities := city :: s.outbreakedCities }
            (net city) sB ⟨hs.1, hs.2⟩ hnbr
        have h2 := (Option.some.inj h).symm
        subst h2
        constructor
        · split
          · exact ⟨hsatB.1, hsatB.2⟩
          · exact ⟨hsatB.1, hsatB.2⟩
        · split
          · rfl
          · rfl
    · intro s l s2 hs h
      cases l with
      | nil =>
        simp only [DiseaseManager.dmRun] at h
        exact (Option.some.inj h) ▸ hs
      | cons c rest =>
        simp only [DiseaseManager.dmRun] at h
        cases hinf : DiseaseManager.dmRun net n s
            (DiseaseManager.DMCall.infectCall c DiseaseType.red 1) with
        | none =>
          rw [hinf] at h
          cases h
        | some sC =>
          rw [hinf] at h
          exact ihNbr sC rest s2 (ihInf s c sC hs hinf).1 h

/-- On any board where every city has at least two neighbours, the first of
which is a different city, an infect of one more red cube into a saturated
board never returns, whatever the fuel: the outbreak of the first neighbour
ends by clearing outbreakedCities, after which the second neighbour starts a
fresh cascade over the already saturated board, smaller only in fuel.  With
unbounded fuel - the TypeScript source - this is an infinite recursion. -/
theorem dmRun_infect_saturated_diverges (net : C → List C)
    (hnet : ∀ c : C, ∃ c1 c2 rest, net c = c1 :: c2 :: rest ∧ c1 ≠ c) :
    ∀ (fuel : Nat) (s : DMState C) (city : C), Saturated s →
      s.outbreakedCities = [] →
      DiseaseManager.dmRun net fuel s
        (DiseaseManager.DMCall.infectCall city DiseaseType.red 1) = none := by
  intro fuel
  induction fuel using Nat.strongRecOn with
  | _ fuel ih =>
    intro s city hs hV
    rcases fuel with _ | n
    · simp [DiseaseManager.dmRun]
    · have hVn : city ∉ s.outbreakedCities := by simp [hV]
      rw [dmRun_infect_saturated_step net n s city hs hVn]
      have hX : DiseaseManager.dmRun net n (preInfect s city)
          (DiseaseManager.DMCall.outbreakCall city DiseaseType.red) =
            none := by
        rcases n with _ | m
        · simp [DiseaseManager.dmRun]
        · simp only [DiseaseManager.dmRun]
          have hsatP : Saturated { preInfect s city with outbreakedCities :=
              city :: (preInfect s city).outbreakedCities } :=
            ⟨(preInfect_saturated hs city).1, (preInfect_saturated hs city).2⟩
          have hVP : ({ preInfect s city with outbreakedCities :=
              city :: (preInfect s city).outbreakedCities } :
                DMState C).outbreakedCities = [city] := by
            simp [preInfect_outbreakedCities, hV]
          have hY : DiseaseManager.dmRun net m
              { preInfect s city with outbreakedCities :=
                city :: (preInfect s city).outbreakedCities }
              (DiseaseManager.DMCall.neighboursCall (net city)
                DiseaseType.red) = none := by
            obtain ⟨c1, c2, rest, hnetc, hc1⟩ := hnet city
            rw [hnetc]
            rcases m with _ | k
            · simp [DiseaseManager.dmRun]
            · simp only [DiseaseManager.dmRun]
              cases hinf : DiseaseManager.dmRun net k
                  { preInfect s city with outbreakedCities :=
                    city :: (preInfect s city).outbreakedCities }
                  (DiseaseManager.DMCall.infectCall c1 DiseaseType.red 1)
                  with
              | none => rfl
              | some s5 =>
                show DiseaseManager.dmRun net k s5
                  (DiseaseManager.DMCall.neighboursCall (c2 :: rest)
                    DiseaseType.red) = none
                obtain ⟨hsat5, _, hV5⟩ :=
                  (dmRun_saturated_preservation net k).1
                    { preInfect s city with outbreakedCities :=
                      city :: (preInfect s city).outbreakedCities }
                    c1 s5 hsatP hinf
                have hV5e : s5.outbreakedCities = [] := by
                  refine hV5 ?_
                  rw [hVP]
                  simp [hc1]
                rcases k with _ | j
                · simp [DiseaseManager.dmRun]
                · simp only [DiseaseManager.dmRun]
                  have hz := ih j (by omega) s5 c2 hsat5 hV5e
                  rw [hz]
          rw [hY]
      rw [hX]

end OutbreakDivergence

/-- Three pairwise adjacent cities: the smallest cyclic board. -/
inductive TriCity where
  | ca
  | cb
  | cc
deriving DecidableEq

/-- The symmetric neighbour relation of the triangle board. -/
def triNet : TriCity → List TriCity
  | TriCity.ca => [TriCity.cb, TriCity.cc]
  | TriCity.cb => [TriCity.ca, TriCity.cc]
  | TriCity.cc => [TriCity.ca, TriCity.cb]

theorem triNet_two_neighbours :
    ∀ c : TriCity, ∃ c1 c2 rest, triNet c = c1 :: c2 :: rest ∧ c1 ≠ c := by
  intro c
  cases c
  · exact ⟨TriCity.cb, TriCity.cc, [], rfl, by decide⟩
  · exact ⟨TriCity.ca, TriCity.cc, [], rfl, by decide⟩
  · exact ⟨TriCity.ca, TriCity.cb, [], rfl, by decide⟩

/-- The triangle board with every city at 3 red cubes, red uncured, a red
global count of 9 and no cascade in progress. -/
def triSaturatedState : DMState TriCity :=
  { globalDiseaseStates := fun _ => DiseaseState.uncured
  , globalDiseaseCubeCounts := fun d => if d = DiseaseType.red then 9 else 0
  , cityDiseaseCubeCount := fun _ d => if d = DiseaseType.red then 3 else 0
  , cityDiseases := fun _ d => d = DiseaseType.red
  , outbreakedCities := []
  , outbreaks := 0
  , infectionRateStep := 0
  , notifications := [] }

theorem triSaturatedState_saturated : Saturated triSaturatedState := by
  constructor
  · rfl
  · intro c
    simp [triSaturatedState]

/-- Claim C1: on the triangle board with every city saturated at 3 red
cubes, infecting any city with one more cube never returns, for every fuel
bound: the cascade of the unbounded source recursion is infinite.  The
outbreakedCities set is cleared at the end of every outbreakAt activation,
the recursive ones included, so after the first neighbour cascade returns
the set is empty again and the second neighbour re-triggers outbreaks for
cities the same cascade already visited, forever. -/
theorem outbreak_cascade_diverges_on_triangle :
    ∀ fuel : Nat, DiseaseManager.infect triNet fuel triSaturatedState
      TriCity.ca DiseaseType.red 1 = none := by
  intro fuel
  exact dmRun_infect_saturated_diverges triNet triNet_two_neighbours fuel
    triSaturatedState TriCity.ca triSaturatedState_saturated rfl

/-- Claim C6: at city cb of the saturated triangle the addition of one cube
would exceed 3, so the claim expects the count clamped at 3 and exactly one
outbreakAt for cb.  Instead the infect call never returns - whatever the
fuel - because the mid-cascade clearing of outbreakedCities lets the cascade
outbreak the same cities again and again. -/
theorem infect_exceeding_cap_never_returns :
    ((3 : Int) <
      triSaturatedState.cityDiseaseCubeCount TriCity.cb DiseaseType.red + 1) ∧
    ∀ fuel : Nat, DiseaseManager.infect triNet fuel triSaturatedState
      TriCity.cb DiseaseType.red 1 = none := by
  constructor
  · simp [triSaturatedState]
  · intro fuel
    exact dmRun_infect_saturated_diverges triNet triNet_two_neighbours fuel
      triSaturatedState TriCity.cb triSaturatedState_saturated rfl

/-- Claim C5: after two full turns the rotation is back at amy, who has
drawn no infection cards in her new turn, yet her endTurn succeeds at once,
because hasDrawnInfectionCards was set during her first turn and is never
reset afterwards - not by endTurn, not by nextPlayerTurn, not by startTurn.
-/
theorem endTurn_succeeds_without_drawing_this_turn :
    (matchResultState twoTurnsRun).map
        (fun ms => (ConcreteGame.getPlayer ms PName.amy).map
          fun p => p.hasDrawnInfectionCards) =
      some (some true) ∧
    matchResultIsOk (Player.andThen twoTurnsRun
        (fun ms => some (Player.endTurn PName.amy ms))) = true := by
  exact ⟨rfl, rfl⟩

end Pandemic
